import Mathlib

/-!
Verification development for the api-deep-search repository's
indexing/retrieval layer: a shallow embedding in Lean 4 of the vector-store
variants (`app/factory/faiss_store.py`, `app/factory/qdrant_store.py`), the
service-level store (`app/services/vector_store.py`), the deletion route
(`app/api/routes.py`), the embedding service
(`app/services/embedding_service.py`) and the endpoint text renderers
(`app/services/vector_store.py`, `app/services/langchain_rag_service.py`),
together with theorems settling the specification's claims about them.
-/

/-- Values stored in a metadata dictionary / Qdrant payload.  The repository
only ever stores strings, booleans, integers and lists of strings at the
payload keys the claims are about (`file_path`, `init`, `text`,
`openapi_version`, ...); a serialized endpoint snapshot is modelled as a
string. -/
inductive MValue where
  | str (s : String)
  | bool (b : Bool)
  | int (n : Int)
  | strList (xs : List String)
deriving DecidableEq, Repr

/-- A Python metadata dict, modelled as an association list in insertion
order (Python dicts preserve insertion order). -/
abbrev Metadata := List (String × MValue)

/-- `metadata.get(key)` / `payload.get(key)`: first binding of the key,
`none` when the key is absent. -/
def mget (m : Metadata) (k : String) : Option MValue :=
  List.lookup k m

/-- `metadata.get("text", "")` restricted to string values, as used by the
FAISS rebuild (`faiss_store.py` line 172). -/
def mgetStr (m : Metadata) (k : String) : String :=
  match mget m k with
  | some (MValue.str s) => s
  | _ => ""

/-- A langchain `Document`: page content plus metadata. -/
structure Doc where
  page_content : String
  metadata : Metadata
deriving DecidableEq, Repr

/-- One condition of a Qdrant-style filter as inspected by
`FAISSStore._matches_filter`.  `field` is a `FieldCondition(key,
match=MatchValue(value))`, which has both a `key` and a `match` attribute;
`other` stands for any condition object lacking a `key` or `match`
attribute (e.g. `HasIdCondition`), which the `hasattr` guard in
`_matches_filter` skips. -/
inductive QCondition where
  | field (key : String) (value : MValue)
  | other
deriving DecidableEq, Repr

/-- Whether a condition is a key/match (`FieldCondition`) condition. -/
def QCondition.isField : QCondition → Bool
  | .field _ _ => true
  | .other => false

/-- A Qdrant-style `Filter` object.  `must = none` models a filter object
whose `must` attribute is absent or `None`; `must = some []` models an
empty `must` list (both are falsy in Python). -/
structure QFilter where
  must : Option (List QCondition)
deriving DecidableEq, Repr

/-- One condition check inside `FAISSStore._matches_filter`'s loop: a
`field` condition fails when `metadata.get(key) != value`; a condition
without `key`/`match` attributes is skipped (treated as satisfied). -/
def condMatches (m : Metadata) : QCondition → Bool
  | .field k v => decide (mget m k = some v)
  | .other => true

/-- `FAISSStore._matches_filter(metadata, filter)`
(`faiss_store.py` lines 109-120): if the filter has a truthy `must`
(present and non-empty), every condition must hold (skipping conditions
without `key`/`match`); otherwise the document is rejected. -/
def matchesFilter (m : Metadata) (f : QFilter) : Bool :=
  match f.must with
  | some (c :: cs) => (c :: cs).all (condMatches m)
  | _ => false

/-! ## FAISS store (`app/factory/faiss_store.py`)

The external langchain FAISS index is abstracted by an environment: for a
document set and a query it produces the documents ranked by descending
similarity (a permutation of the set).  The store's own state is the
documents currently in the index plus the `metadata_map` (file path →
metadata entries) that the store persists in `metadata.json`. -/

/-- Environment abstracting the external embedding function and FAISS
nearest-neighbour index: `rank ds q` is the full similarity ranking of the
documents `ds` for query `q`, which is a permutation of `ds`.  The
underlying `FAISS.similarity_search(query, k)` returns the first `k`
entries of this ranking. -/
structure FAISSEnv where
  rank : List Doc → String → List Doc
  rank_perm : ∀ ds q, (rank ds q).Perm ds

/-- In-memory state of a `FAISSStore`: the documents of the live langchain
FAISS index and the provenance map `metadata_map`. -/
structure FAISSState where
  docs : List Doc
  metadata_map : List (String × List Metadata)
deriving DecidableEq

/-- The placeholder record used to seed a fresh index
(`FAISS.from_texts(texts=["初始化索引"], metadatas=[{"init": True}])`,
`faiss_store.py` lines 47-51 and 130-134). -/
def initDoc : Doc :=
  ⟨"初始化索引", [("init", MValue.bool true)]⟩

/-- The state produced by `_load_or_create_index` when no valid persisted
files exist: a new index holding only the placeholder record, with an empty
metadata map (`_load_metadata` returns `{}`). -/
def freshFAISS : FAISSState :=
  ⟨[initDoc], []⟩

namespace FAISSStore

/-- The underlying `self.vector_store.similarity_search(query, k)` of the
external langchain FAISS index: the top `k` documents by similarity. -/
def innerSearch (env : FAISSEnv) (s : FAISSState) (q : String) (k : Nat) : List Doc :=
  (env.rank s.docs q).take k

/-- The client-side filtering loop of `FAISSStore.similarity_search`
(`faiss_store.py` lines 100-105): walk the over-fetched results in order,
keep documents matching the filter, and break as soon as `k` have been
collected (a `k` of `0` behaves like `1`, because the length check runs
after the append). -/
def takeMatching (f : QFilter) : Nat → List Doc → List Doc
  | _, [] => []
  | k, d :: ds =>
    if matchesFilter d.metadata f then
      if k ≤ 1 then [d] else d :: takeMatching f (k - 1) ds
    else takeMatching f k ds

/-- `FAISSStore.similarity_search(query, k, filter)` (`faiss_store.py`
lines 90-107): with no filter, delegate directly with `k`; with a filter,
over-fetch `k*3` results and post-filter client-side. -/
def similarity_search (env : FAISSEnv) (s : FAISSState) (q : String) (k : Nat)
    (filter : Option QFilter) : List Doc :=
  match filter with
  | none => innerSearch env s q k
  | some f => takeMatching f k (innerSearch env s q (k * 3))

/-- Insert one metadata entry into `metadata_map` under its file path,
appending to the existing list or creating a new singleton entry
(`faiss_store.py` lines 79-84). -/
def mapInsert (mm : List (String × List Metadata)) (fp : String) (m : Metadata) :
    List (String × List Metadata) :=
  match mm with
  | [] => [(fp, [m])]
  | (k, ms) :: rest =>
    if k = fp then (k, ms ++ [m]) :: rest else (k, ms) :: mapInsert rest fp m

/-- The metadata-map update of `add_texts`: each metadata whose
`file_path` entry is a truthy (non-empty) string is recorded under that
path; entries without one are not tracked. -/
def mapInsertAll (mm : List (String × List Metadata)) (metas : List Metadata) :
    List (String × List Metadata) :=
  metas.foldl (fun acc m =>
    match mget m "file_path" with
    | some (MValue.str fp) => if fp.isEmpty then acc else mapInsert acc fp m
    | _ => acc) mm

/-- `FAISSStore.add_texts(texts, metadatas)` (`faiss_store.py` lines
73-88): append the new documents to the index and record each metadata
under its `file_path` in the metadata map. -/
def add_texts (s : FAISSState) (texts : List String) (metas : List Metadata) : FAISSState :=
  { docs := s.docs ++ List.zipWith Doc.mk texts metas,
    metadata_map := mapInsertAll s.metadata_map metas }

/-- `FAISSStore.clean()` (`faiss_store.py` lines 126-146): replace the
index with a fresh one holding only the placeholder record and clear the
metadata map. -/
def clean (_s : FAISSState) : FAISSState :=
  freshFAISS

/-- The rebuilt document list of `delete_by_file_path` (`faiss_store.py`
lines 163-175): one `Document` per surviving metadata entry, with
`page_content` taken from the retained `text` metadata field
(default `""`). -/
def rebuildDocs (mm : List (String × List Metadata)) : List Doc :=
  ((mm.map (·.2)).flatten).map (fun m => ⟨mgetStr m "text", m⟩)

/-- `del self.metadata_map[file_path]`: remove the entry for the given
key, keeping the order of the rest. -/
def eraseMM (mm : List (String × List Metadata)) (fp : String) :
    List (String × List Metadata) :=
  mm.filter (fun p => decide (p.1 ≠ fp))

/-- `FAISSStore.delete_by_file_path(file_path)` (`faiss_store.py` lines
148-194): if the path is not tracked return 0; otherwise drop its entry
from the metadata map, rebuild the index from the surviving entries'
retained text, falling back to `clean()` when nothing survives, and return
the number of dropped entries. -/
def delete_by_file_path (s : FAISSState) (fp : String) : FAISSState × Nat :=
  match List.lookup fp s.metadata_map with
  | none => (s, 0)
  | some ms =>
    let mm2 := eraseMM s.metadata_map fp
    let docs2 := rebuildDocs mm2
    if docs2.isEmpty then (freshFAISS, ms.length)
    else ({ docs := docs2, metadata_map := mm2 }, ms.length)

end FAISSStore

/-! ## FAISS on-disk state (`_save_index` / `_save_metadata`)

`_save_index` overwrites `index.faiss`/`index.pkl` in place with the live
index (`faiss_store.py` lines 53-55); `_save_metadata` overwrites
`metadata.json` in place with the live metadata map (lines 68-71).  Neither
uses a staged temporary file or an atomic rename. -/

/-- What is on disk: the contents of the persisted index files and of
`metadata.json`. -/
structure FAISSDisk where
  index_docs : List Doc
  metadata_file : List (String × List Metadata)
deriving DecidableEq

/-- Whether an on-disk index/metadata pair agrees: a key has a non-empty
entry in the metadata file exactly when some indexed document carries that
key as its `file_path`. -/
def diskConsistent (d : FAISSDisk) : Bool :=
  d.metadata_file.all (fun p =>
    !(!p.2.isEmpty) ||
      d.index_docs.any (fun doc =>
        decide (mget doc.metadata "file_path" = some (MValue.str p.1)))) &&
  d.index_docs.all (fun doc =>
    match mget doc.metadata "file_path" with
    | some (MValue.str k) =>
        d.metadata_file.any (fun p => decide (p.1 = k) && !p.2.isEmpty)
    | _ => true)

namespace FAISSStore

/-- The successive on-disk states produced by one run of
`delete_by_file_path` starting from disk state `d` (`faiss_store.py`
lines 148-194): nothing is written when the key is untracked; otherwise
the index files are overwritten first (`_save_index`) and `metadata.json`
afterwards (`_save_metadata`).  When no document survives, `clean()` runs
first (writing the placeholder index and an empty metadata file) and the
trailing `_save_metadata` writes the empty map again.  A crash partway
through leaves the disk at one of the listed intermediate states. -/
def deleteDiskTrace (s : FAISSState) (d : FAISSDisk) (fp : String) : List FAISSDisk :=
  match List.lookup fp s.metadata_map with
  | none => [d]
  | some _ =>
    let mm2 := eraseMM s.metadata_map fp
    let docs2 := rebuildDocs mm2
    if docs2.isEmpty then
      [d, { d with index_docs := [initDoc] },
       ⟨[initDoc], []⟩, ⟨[initDoc], []⟩]
    else
      [d, { d with index_docs := docs2 }, ⟨docs2, mm2⟩]

end FAISSStore

/-! ## Qdrant-backed stores

The external Qdrant service is modelled as a collection of points (id plus
payload); the embedding/ranking side of `search` is abstracted by an
environment producing a similarity permutation of the stored points, and
`scroll` returns the points matching a filter up to the requested page
`limit` (the qdrant client's `scroll` defaults to `limit=10` and the code
reads only the first page). -/

/-- A stored Qdrant point: id, raw document text and payload. -/
structure QPoint where
  id : Nat
  text : String
  payload : Metadata
deriving DecidableEq

/-- A Qdrant collection's contents. -/
structure QdrantCollection where
  points : List QPoint
deriving DecidableEq

/-- Environment abstracting embedding plus Qdrant's similarity ranking for
the query at hand: a permutation of the stored points in descending
similarity order. -/
structure QdrantEnv where
  rank : List QPoint → List QPoint
  rank_perm : ∀ ps, (rank ps).Perm ps

/-- Server-side evaluation of a Qdrant `Filter` on a payload: every `must`
condition holds; an absent `must` matches everything.  Only `field`
conditions are used by this repository. -/
def serverFilterMatches (m : Metadata) (f : QFilter) : Bool :=
  match f.must with
  | some cs => cs.all (condMatches m)
  | none => true

/-- `client.scroll(collection_name, scroll_filter=f, limit=n)`: the first
page of points matching the filter, at most `n` of them. -/
def qdrantScroll (c : QdrantCollection) (f : QFilter) (limit : Nat) : List QPoint :=
  (c.points.filter (fun p => serverFilterMatches p.payload f)).take limit

/-- The filter `Filter(must=[FieldCondition(key="file_path",
match=MatchValue(value=fp))])` built by `QdrantStore.delete_by_file_path`. -/
def filePathFilter (fp : String) : QFilter :=
  ⟨some [QCondition.field "file_path" (MValue.str fp)]⟩

namespace QdrantStore

/-- `QdrantStore.clean()` (`qdrant_store.py` lines 60-68):
`delete_collection` followed by `_ensure_collection` leaves a freshly
created empty collection. -/
def clean (_c : QdrantCollection) : QdrantCollection :=
  ⟨[]⟩

/-- `QdrantStore.add_texts(texts, metadatas)` (`qdrant_store.py` lines
48-50): the langchain store appends one point per text with a fresh unique
id (ids are modelled as successive indices). -/
def add_texts (c : QdrantCollection) (texts : List String) (metas : List Metadata) :
    QdrantCollection :=
  ⟨c.points ++ (List.zipWith Prod.mk texts metas).enum.map
      (fun pr => ⟨c.points.length + pr.1, pr.2.1, pr.2.2⟩)⟩

/-- `QdrantStore.similarity_search(query, k, filter)` (`qdrant_store.py`
lines 52-54): the filter is pushed down natively and the top `k` matching
points are returned. -/
def similarity_search (env : QdrantEnv) (c : QdrantCollection) (k : Nat)
    (filter : Option QFilter) : List QPoint :=
  ((env.rank c.points).filter (fun p =>
    match filter with
    | none => true
    | some f => serverFilterMatches p.payload f)).take k

/-- `QdrantStore.delete_by_file_path(file_path)` (`qdrant_store.py` lines
70-100): scroll for the points whose `file_path` payload equals the key —
with the client's default page limit of 10 and reading only the first page
(`[0]`) — delete those point ids, and return how many were fetched. -/
def delete_by_file_path (c : QdrantCollection) (fp : String) : QdrantCollection × Nat :=
  let pts := qdrantScroll c (filePathFilter fp) 10
  if pts.isEmpty then (c, 0)
  else
    (⟨c.points.filter (fun p => decide (p.id ∉ pts.map QPoint.id))⟩, pts.length)

end QdrantStore

/-! ## Service-level store (`app/services/vector_store.py`) and the
deletion route (`app/api/routes.py`)

`VectorStore` delegates to `QdrantVectorService` (`vector_service.py`).
Crucially, `QdrantVectorService` defines no `create_point`,
`create_file_filter` or `create_oas_version_filter` method, yet
`VectorStore.delete_embeddings_by_file_path` calls
`self.vector_service.create_file_filter(file_path)` inside a blanket
`try/except` that returns 0 on any exception. -/

namespace VectorStoreSvc

/-- `VectorStore.search(query, top_k)` (`vector_store.py` lines 102-125):
embed the query and return the `top_k` most similar points. -/
def search (env : QdrantEnv) (c : QdrantCollection) (top_k : Nat) : List QPoint :=
  (env.rank c.points).take top_k

/-- `VectorStore.get_all_file_paths()` (`vector_store.py` lines 150-180):
scroll the whole collection and collect the set of `file_path` payload
values of points that have one. -/
def get_all_file_paths (c : QdrantCollection) : List MValue :=
  if c.points.length = 0 then []
  else (c.points.filterMap (fun p => mget p.payload "file_path")).dedup

/-- `VectorStore.delete_embeddings_by_file_path(file_path)`
(`vector_store.py` lines 182-222).  With an empty collection it returns 0
early.  Otherwise it calls `self.vector_service.create_file_filter(...)` —
a method `QdrantVectorService` does not define — so an `AttributeError` is
raised, swallowed by the blanket `except Exception`, and 0 is returned
with no point deleted. -/
def delete_embeddings_by_file_path (c : QdrantCollection) (_fp : String) :
    QdrantCollection × Nat :=
  if c.points.length = 0 then (c, 0)
  else (c, 0)

end VectorStoreSvc

/-- Combined state seen by the `/api/delete` route: the vector collection
and the set of artifact files on disk. -/
structure SysState where
  collection : QdrantCollection
  files : List String
deriving DecidableEq

/-- The successive combined states produced by one run of the
`delete_file` route (`routes.py` lines 330-365): 404 when the file does
not exist; otherwise first `vector_store.delete_embeddings_by_file_path`
runs (its outcome on the collection is recorded as the middle state), then
`file_storage.delete_file` removes the disk file. -/
def deleteFileTrace (upload_dir file_name : String) (s : SysState) : List SysState :=
  let file_path := upload_dir ++ "/" ++ file_name
  if file_path ∈ s.files then
    let s1 : SysState :=
      ⟨(VectorStoreSvc.delete_embeddings_by_file_path s.collection file_path).1, s.files⟩
    let s2 : SysState := ⟨s1.collection, s1.files.erase file_path⟩
    [s, s1, s2]
  else [s]

/-! ## Endpoint data model and the two embedding-text renderers

`APIEndpoint` follows `app/models/schema.py`.  Nested JSON values (request
body, schemas) are a small JSON type; `json.dumps` is Python's standard
library and is abstracted as a function parameter `dumps`. -/

/-- A JSON value as found in a request body or schema. -/
inductive JVal where
  | str (s : String)
  | num (n : Int)
  | bool (b : Bool)
  | obj (fields : List (String × JVal))

/-- One entry of `APIEndpoint.parameters` (a `Dict[str, Any]`); the fields
the renderers read, each optional exactly as `dict.get` treats them
(`required` defaults to `False`). -/
structure Param where
  name : Option String
  description : Option String
  required : Bool
  param_in : Option String

/-- One entry of `APIEndpoint.responses`: only `description` is read
(`response.get("description", "")`). -/
structure Resp where
  description : Option String

/-- `APIEndpoint` (`app/models/schema.py` lines 4-14). -/
structure APIEndpoint where
  path : String
  method : String
  summary : Option String
  description : Option String
  parameters : List Param
  request_body : Option (List (String × JVal))
  responses : List (String × Resp)
  tags : List String
  operationId : Option String

/-- Python truthiness of an optional string (`None` and `""` are falsy). -/
def truthyOS : Option String → Bool
  | some s => !s.isEmpty
  | none => false

/-- `media_info.get(key, {})`-style lookup inside a JSON object; non-object
values have no entries. -/
def jGet (v : JVal) (k : String) : Option JVal :=
  match v with
  | .obj fs => List.lookup k fs
  | _ => none

/-- Python truthiness of a JSON value (empty string/object, `0` and
`False` are falsy). -/
def jTruthy : JVal → Bool
  | .str s => !s.isEmpty
  | .num n => decide (n ≠ 0)
  | .bool b => b
  | .obj fs => !fs.isEmpty

namespace VectorStoreSvc

/-- The `摘要` part (`vector_store.py` lines 34-35). -/
def summary_part (e : APIEndpoint) : List String :=
  if truthyOS e.summary then ["摘要: " ++ e.summary.getD ""] else []

/-- The `描述` part (`vector_store.py` lines 37-38). -/
def description_part (e : APIEndpoint) : List String :=
  if truthyOS e.description then ["描述: " ++ e.description.getD ""] else []

/-- The `标签` part (`vector_store.py` lines 40-41). -/
def tags_part (e : APIEndpoint) : List String :=
  if e.tags.isEmpty then [] else ["标签: " ++ String.intercalate ", " e.tags]

/-- The parameter lines: one per parameter that has a `name` key
(`vector_store.py` lines 44-45). -/
def params_lines (e : APIEndpoint) : List String :=
  e.parameters.filterMap (fun p =>
    p.name.map (fun n => "- " ++ n ++ ": " ++ p.description.getD ""))

/-- The `参数` part (`vector_store.py` lines 43-47), appended only when
the joined parameter string is truthy. -/
def params_part (e : APIEndpoint) : List String :=
  let ps := String.intercalate "\n" (params_lines e)
  if ps.isEmpty then [] else ["参数:\n" ++ ps]

/-- The `请求体` part (`vector_store.py` lines 49-52): header plus the
JSON dump of the (dict-valued) request body, when the body is truthy. -/
def request_body_part (dumps : JVal → String) (e : APIEndpoint) : List String :=
  match e.request_body with
  | some rb => if rb.isEmpty then [] else ["请求体:", dumps (JVal.obj rb)]
  | none => []

/-- The `响应` part (`vector_store.py` lines 54-57). -/
def responses_part (e : APIEndpoint) : List String :=
  if e.responses.isEmpty then []
  else "响应:" :: e.responses.map (fun pr => "- " ++ pr.1 ++ ": " ++ pr.2.description.getD "")

/-- `VectorStore._prepare_endpoint_text(endpoint)` (`vector_store.py`
lines 27-59), translated append by append: path and method first, then the
conditional parts, joined with newlines. -/
def prepare_endpoint_text (dumps : JVal → String) (e : APIEndpoint) : String :=
  String.intercalate "\n"
    (["路径: " ++ e.path, "方法: " ++ e.method]
      ++ summary_part e ++ description_part e ++ tags_part e
      ++ params_part e ++ request_body_part dumps e ++ responses_part e)

/-- Rendering of the same field sections in the fixed order the code uses:
path, method, summary, description, tags, parameters, request body,
responses. -/
def renderPathFirst (dumps : JVal → String) (e : APIEndpoint) : String :=
  String.intercalate "\n" (List.flatten
    [["路径: " ++ e.path], ["方法: " ++ e.method], summary_part e,
     description_part e, tags_part e, params_part e,
     request_body_part dumps e, responses_part e])

/-- Modelled from the spec: rendering with the field order the
specification states — method first, then path, then the remaining
sections in the same order. -/
def renderMethodFirst (dumps : JVal → String) (e : APIEndpoint) : String :=
  String.intercalate "\n" (List.flatten
    [["方法: " ++ e.method], ["路径: " ++ e.path], summary_part e,
     description_part e, tags_part e, params_part e,
     request_body_part dumps e, responses_part e])

end VectorStoreSvc

namespace LangchainRAGService

/-- The `参数` part (`langchain_rag_service.py` lines 167-174): a header
plus one line per parameter with name, location and required flag. -/
def params_part (e : APIEndpoint) : List String :=
  if e.parameters.isEmpty then []
  else "参数:" :: e.parameters.map (fun p =>
    "- " ++ p.name.getD "" ++ " (" ++ p.param_in.getD "" ++ ", "
      ++ (if p.required then "必需" else "可选") ++ "): " ++ p.description.getD "")

/-- The per-media-type lines of the request body part
(`langchain_rag_service.py` lines 179-183). -/
def media_parts (dumps : JVal → String) (content : List (String × JVal)) : List String :=
  (content.map (fun pr =>
    ("- 媒体类型: " ++ pr.1) ::
      (let schema := (jGet pr.2 "schema").getD (JVal.obj [])
       if jTruthy schema then ["  结构: " ++ dumps schema] else []))).flatten

/-- The `请求体` part (`langchain_rag_service.py` lines 176-183): header,
then the media types of `request_body.get("content", {})`. -/
def request_body_part (dumps : JVal → String) (e : APIEndpoint) : List String :=
  match e.request_body with
  | some rb =>
    if rb.isEmpty then []
    else
      "请求体:" ::
        (match List.lookup "content" rb with
         | some (JVal.obj content) => media_parts dumps content
         | _ => [])
  | none => []

/-- The `响应` part (`langchain_rag_service.py` lines 185-188). -/
def responses_part (e : APIEndpoint) : List String :=
  if e.responses.isEmpty then []
  else "响应:" :: e.responses.map (fun pr =>
    "- 状态码 " ++ pr.1 ++ ": " ++ pr.2.description.getD "")

/-- `LangchainRAGService._prepare_endpoint_text(endpoint)`
(`langchain_rag_service.py` lines 144-190), translated append by append. -/
def prepare_endpoint_text (dumps : JVal → String) (e : APIEndpoint) : String :=
  String.intercalate "\n"
    (["路径: " ++ e.path, "方法: " ++ e.method]
      ++ VectorStoreSvc.summary_part e ++ VectorStoreSvc.description_part e
      ++ VectorStoreSvc.tags_part e ++ params_part e
      ++ request_body_part dumps e ++ responses_part e)

/-- Rendering of the same sections in the fixed order the code uses
(path first). -/
def renderPathFirst (dumps : JVal → String) (e : APIEndpoint) : String :=
  String.intercalate "\n" (List.flatten
    [["路径: " ++ e.path], ["方法: " ++ e.method], VectorStoreSvc.summary_part e,
     VectorStoreSvc.description_part e, VectorStoreSvc.tags_part e, params_part e,
     request_body_part dumps e, responses_part e])

/-- Modelled from the spec: rendering with the specification's stated
field order — method before path. -/
def renderMethodFirst (dumps : JVal → String) (e : APIEndpoint) : String :=
  String.intercalate "\n" (List.flatten
    [["方法: " ++ e.method], ["路径: " ++ e.path], VectorStoreSvc.summary_part e,
     VectorStoreSvc.description_part e, VectorStoreSvc.tags_part e, params_part e,
     request_body_part dumps e, responses_part e])

end LangchainRAGService

/-! ## Embedding service (`app/services/embedding_service.py`)

The backing models (SentenceTransformers, OpenAI, SiliconFlow) are
external; an environment gives, per provider and configured model name,
the model's true output dimension and its encoding function, with the
models' contract that every returned vector has the model's dimension.
`Settings` (`app/config/settings.py`) defines `embedding_model` but NOT
`local_embedding_model`, which `EmbeddingService.__init__` reads for the
`local` provider. -/

/-- The three configurable embedding providers. -/
inductive EmbProvider where
  | localProvider
  | openai
  | siliconflow
deriving DecidableEq

/-- The embedding-related fields that `Settings` actually defines. -/
structure EmbSettings where
  embedding_provider : EmbProvider
  embedding_model : String
  openai_embedding_model : String
  siliconflow_embedding_model : String
  embedding_dimension : Nat
deriving DecidableEq

/-- A Python exception as surfaced by the service. -/
inductive PyError where
  | attributeError (attr : String)
deriving DecidableEq

/-- The state of a successfully constructed `EmbeddingService`. -/
structure EmbServiceState where
  provider : EmbProvider
  embedding_model_name : String
  embedding_dimension : Nat
deriving DecidableEq

/-- Environment abstracting the external embedding models: each
provider/model pair has a fixed output dimension, and encoding always
returns a vector of that length (vector entries abstracted as integers). -/
structure EmbEnv where
  modelDim : EmbProvider → String → Nat
  encode : EmbProvider → String → String → List Int
  encode_len : ∀ p m t, (encode p m t).length = modelDim p m

namespace EmbeddingService

/-- `EmbeddingService.__init__` (`embedding_service.py` lines 10-32).  For
`local` it reads `settings.local_embedding_model`, an attribute `Settings`
does not define, so construction raises `AttributeError`.  For `openai`
the dimension is hardcoded to 1536 (the `text-embedding-3-small`
dimension) and for `siliconflow` to 1024, regardless of the configured
model name. -/
def construct (st : EmbSettings) : Except PyError EmbServiceState :=
  match st.embedding_provider with
  | .localProvider => .error (.attributeError "local_embedding_model")
  | .openai => .ok ⟨.openai, st.openai_embedding_model, 1536⟩
  | .siliconflow => .ok ⟨.siliconflow, st.siliconflow_embedding_model, 1024⟩

/-- `EmbeddingService.get_embedding_dimension()` (`embedding_service.py`
lines 34-36). -/
def get_embedding_dimension (svc : EmbServiceState) : Nat :=
  svc.embedding_dimension

/-- `EmbeddingService.get_embedding(text)` (`embedding_service.py` lines
38-63): delegate to the configured provider's model; the returned vector
is used as-is, with no length validation. -/
def get_embedding (env : EmbEnv) (svc : EmbServiceState) (text : String) : List Int :=
  env.encode svc.provider svc.embedding_model_name text

end EmbeddingService

/-! ## Concrete instances used as witnesses and counterexamples -/

/-- Identity ranking environment for the FAISS abstraction: documents are
ranked in storage order. -/
def idFEnv : FAISSEnv :=
  ⟨fun ds _ => ds, fun ds _ => List.Perm.refl ds⟩

/-- Identity ranking environment for the Qdrant abstraction. -/
def idQEnv : QdrantEnv :=
  ⟨fun ps => ps, fun ps => List.Perm.refl ps⟩

/-- The invariant relating a `FAISSStore` metadata map to its entries:
every tracked path has a non-empty entry list, and every recorded metadata
carries that path as its `file_path`.  This is exactly what `add_texts`
establishes entry by entry. -/
def MMInv (mm : List (String × List Metadata)) : Prop :=
  ∀ p ∈ mm, p.2 ≠ [] ∧ ∀ m ∈ p.2, mget m "file_path" = some (MValue.str p.1)

/-- A point of the service-level collection holding one chunk of the
artifact `upload/a.json`. -/
def p1 : QPoint := ⟨0, "", [("file_path", MValue.str "upload/a.json")]⟩

/-- Service-level collection with a single chunk keyed `upload/a.json`. -/
def c1 : QdrantCollection := ⟨[p1]⟩

/-- A version filter selecting `openapi_version = "3.0.0"`. -/
def f2 : QFilter := ⟨some [QCondition.field "openapi_version" (MValue.str "3.0.0")]⟩

/-- FAISS corpus of four documents, exactly one of which matches `f2`. -/
def s2 : FAISSState :=
  ⟨[⟨"a", [("openapi_version", MValue.str "2.0")]⟩,
    ⟨"b", [("openapi_version", MValue.str "3.0.0")]⟩,
    ⟨"c", [("openapi_version", MValue.str "2.0")]⟩,
    ⟨"d", [("openapi_version", MValue.str "2.0")]⟩], []⟩

/-- The single document of `s2` matching `f2`. -/
def dB : Doc := ⟨"b", [("openapi_version", MValue.str "3.0.0")]⟩

/-- Qdrant collection holding eleven chunks with provenance key
`spec-A`. -/
def c3coll : QdrantCollection :=
  ⟨(List.range 11).map (fun i => ⟨i, "", [("file_path", MValue.str "spec-A")]⟩)⟩

/-- Metadata of a chunk of artifact `a` with retained text `ta`. -/
def mA4 : Metadata := [("file_path", MValue.str "a"), ("text", MValue.str "ta")]

/-- Metadata of a chunk of artifact `b` with retained text `tb`. -/
def mB4 : Metadata := [("file_path", MValue.str "b"), ("text", MValue.str "tb")]

/-- The indexed document of artifact `b`. -/
def docB4 : Doc := ⟨"tb", mB4⟩

/-- FAISS store holding one chunk each for artifacts `a` and `b` (plus the
placeholder). -/
def s4 : FAISSState :=
  ⟨[initDoc, ⟨"ta", mA4⟩, docB4], [("a", [mA4]), ("b", [mB4])]⟩

/-- On-disk pair agreeing with `s4`. -/
def d4 : FAISSDisk := ⟨s4.docs, s4.metadata_map⟩

/-- The intermediate disk state of deleting `a` from `s4`: index already
rebuilt, `metadata.json` still the old map. -/
def d4mid : FAISSDisk := ⟨[docB4], s4.metadata_map⟩

/-- The final disk state of deleting `a` from `s4`. -/
def d4fin : FAISSDisk := ⟨[docB4], [("b", [mB4])]⟩

/-- An endpoint with only a path and a method set. -/
def e0 : APIEndpoint := ⟨"/users", "GET", none, none, [], none, [], [], none⟩

/-- A trivial stand-in for `json.dumps` (never reached on `e0`, which has
no request body). -/
def dumps0 : JVal → String := fun _ => ""

/-- The true output dimensions of the providers' default models
(`text-embedding-3-small` = 1536, `embe-medium` = 1024,
`BAAI/bge-large-zh-v1.5` = 1024). -/
def dimDefault : EmbProvider → String → Nat := fun p _ =>
  match p with
  | .openai => 1536
  | .siliconflow => 1024
  | .localProvider => 1024

/-- Environment in which every backing model has its default dimension. -/
def envDefault : EmbEnv :=
  ⟨dimDefault, fun p m _ => List.replicate (dimDefault p m) 0,
   fun _ _ _ => List.length_replicate _ _⟩

/-- Settings with all defaults (`settings.py`), except the provider set to
`openai`. -/
def stDefault : EmbSettings :=
  ⟨.openai, "BAAI/bge-large-zh-v1.5", "text-embedding-3-small", "embe-medium", 1024⟩

/-- The service state `construct stDefault` yields. -/
def svcDefault : EmbServiceState := ⟨.openai, "text-embedding-3-small", 1536⟩

/-- Model dimensions in an environment where the configured OpenAI model
is `text-embedding-3-large` (output dimension 3072). -/
def dimBig : EmbProvider → String → Nat := fun _ m =>
  if m = "text-embedding-3-large" then 3072 else 1536

/-- Environment with `text-embedding-3-large` as a reachable model. -/
def envBig : EmbEnv :=
  ⟨dimBig, fun p m _ => List.replicate (dimBig p m) 0,
   fun _ _ _ => List.length_replicate _ _⟩

/-- Settings selecting the OpenAI provider with
`OPENAI_EMBEDDING_MODEL=text-embedding-3-large`. -/
def stBig : EmbSettings :=
  ⟨.openai, "BAAI/bge-large-zh-v1.5", "text-embedding-3-large", "embe-medium", 1024⟩

/-- The service state `construct stBig` yields. -/
def svcBig : EmbServiceState := ⟨.openai, "text-embedding-3-large", 1536⟩

/-- A chunk of the artifact `upload/a.json` in the combined system state. -/
def p7 : QPoint := ⟨0, "", [("file_path", MValue.str "upload/a.json")]⟩

/-- Combined state: the artifact file exists on disk and its chunk is in
the collection. -/
def sys7 : SysState := ⟨⟨[p7]⟩, ["upload/a.json"]⟩

/-- The state after the route finishes: the file is gone, the chunk is
still stored. -/
def sys7end : SysState := ⟨⟨[p7]⟩, []⟩

/-- A single-document FAISS corpus for the filter claims. -/
def docX : Doc := ⟨"d", [("openapi_version", MValue.str "3.0.0")]⟩

/-- FAISS state holding only `docX`. -/
def sX : FAISSState := ⟨[docX], []⟩

/-- A filter whose non-empty `must` holds only a condition without
`key`/`match` attributes. -/
def fOther : QFilter := ⟨some [QCondition.other]⟩

/-! ## Helper lemmas about the client-side filtering loop -/

/-- Every document the filtering loop keeps matches the filter. -/
theorem takeMatching_mem {f : QFilter} :
    ∀ {k : Nat} {l : List Doc} {d : Doc},
      d ∈ FAISSStore.takeMatching f k l → matchesFilter d.metadata f = true := by
  intro k l
  induction l generalizing k with
  | nil => intro d h; simp [FAISSStore.takeMatching] at h
  | cons a t ih =>
    intro d h
    by_cases ha : matchesFilter a.metadata f
    · rw [FAISSStore.takeMatching, if_pos ha] at h
      by_cases hk : k ≤ 1
      · rw [if_pos hk] at h
        simp only [List.mem_singleton] at h
        subst h; exact ha
      · rw [if_neg hk] at h
        rcases List.mem_cons.mp h with h1 | h2
        · subst h1; exact ha
        · exact ih h2
    · rw [FAISSStore.takeMatching, if_neg ha] at h
      exact ih h

/-- When fewer than `k` documents of the walked list match, the loop never
breaks and returns exactly the matching sublist in order. -/
theorem takeMatching_eq_filter {f : QFilter} :
    ∀ {k : Nat} {l : List Doc},
      (l.filter (fun d => matchesFilter d.metadata f)).length < k →
      FAISSStore.takeMatching f k l = l.filter (fun d => matchesFilter d.metadata f) := by
  intro k l
  induction l generalizing k with
  | nil => intro _; simp [FAISSStore.takeMatching]
  | cons a t ih =>
    intro h
    by_cases ha : matchesFilter a.metadata f
    · have hfil : (a :: t).filter (fun d => matchesFilter d.metadata f)
          = a :: t.filter (fun d => matchesFilter d.metadata f) := by
        simp [List.filter_cons, ha]
      rw [hfil] at h ⊢
      have hk2 : ¬ k ≤ 1 := by
        simp only [List.length_cons] at h; omega
      rw [FAISSStore.takeMatching, if_pos ha, if_neg hk2]
      have ht : (t.filter (fun d => matchesFilter d.metadata f)).length < k - 1 := by
        simp only [List.length_cons] at h; omega
      rw [ih ht]
    · have hfil : (a :: t).filter (fun d => matchesFilter d.metadata f)
          = t.filter (fun d => matchesFilter d.metadata f) := by
        simp [List.filter_cons, ha]
      rw [hfil] at h ⊢
      rw [FAISSStore.takeMatching, if_neg ha]
      exact ih h

/-- For a positive `k`, the loop keeps at most `k` documents. -/
theorem takeMatching_length_le {f : QFilter} :
    ∀ {k : Nat} (l : List Doc), 1 ≤ k →
      (FAISSStore.takeMatching f k l).length ≤ k := by
  intro k l
  induction l generalizing k with
  | nil => intro _; simp [FAISSStore.takeMatching]
  | cons a t ih =>
    intro hk
    by_cases ha : matchesFilter a.metadata f
    · by_cases h1 : k ≤ 1
      · rw [FAISSStore.takeMatching, if_pos ha, if_pos h1]
        simpa using hk
      · rw [FAISSStore.takeMatching, if_pos ha, if_neg h1]
        have := ih (k := k - 1) (by omega)
        simp only [List.length_cons]
        omega
    · rw [FAISSStore.takeMatching, if_neg ha]
      exact ih hk

/-- A filter matched by no document makes the loop return nothing. -/
theorem takeMatching_eq_nil {f : QFilter} :
    ∀ {k : Nat} {l : List Doc},
      (∀ d ∈ l, matchesFilter d.metadata f = false) →
      FAISSStore.takeMatching f k l = [] := by
  intro k l
  induction l generalizing k with
  | nil => intro _; simp [FAISSStore.takeMatching]
  | cons a t ih =>
    intro h
    have ha : matchesFilter a.metadata f = false := h a (by simp)
    rw [FAISSStore.takeMatching, if_neg (by simp [ha])]
    exact ih (fun d hd => h d (by simp [hd]))

/-- A filter whose `must` is absent or empty matches no metadata. -/
theorem matchesFilter_of_trivial_must {f : QFilter}
    (h : f.must = none ∨ f.must = some []) (m : Metadata) :
    matchesFilter m f = false := by
  obtain ⟨mu⟩ := f
  rcases h with h | h <;> simp_all [matchesFilter]

/-! ## Claim theorems -/

/-- Claim C6: reset is idempotent on both store variants — `clean` twice
in a row leaves the fresh empty state after each call (for FAISS, the
placeholder-only index with an empty metadata map; for Qdrant, an empty
collection), and an ingest after the two resets is literally an ingest
into a freshly constructed index. -/
theorem C6_reset_idempotent :
    ∀ (s : FAISSState) (c : QdrantCollection) (texts : List String) (metas : List Metadata),
      FAISSStore.clean (FAISSStore.clean s) = FAISSStore.clean s
      ∧ FAISSStore.clean s = freshFAISS
      ∧ (FAISSStore.clean s).docs = [initDoc]
      ∧ (FAISSStore.clean s).metadata_map = []
      ∧ FAISSStore.add_texts (FAISSStore.clean (FAISSStore.clean s)) texts metas
          = FAISSStore.add_texts freshFAISS texts metas
      ∧ QdrantStore.clean (QdrantStore.clean c) = QdrantStore.clean c
      ∧ (QdrantStore.clean c).points = []
      ∧ QdrantStore.add_texts (QdrantStore.clean (QdrantStore.clean c)) texts metas
          = QdrantStore.add_texts ⟨[]⟩ texts metas := by
  intro s c texts metas
  exact ⟨rfl, rfl, rfl, rfl, rfl, rfl, rfl, rfl⟩

/-- Claim C1 (violation): on the service-level store pair
(`delete_embeddings_by_file_path` / `get_all_file_paths`), deleting the
provenance key `upload/a.json` from a collection holding one chunk with
that key returns successfully (count 0) yet the chunk is still stored,
still returned by an unrestricted search, and the key is still listed by
`get_all_file_paths` — because `create_file_filter` does not exist on
`QdrantVectorService` and the `AttributeError` is silently swallowed. -/
theorem C1_delete_completeness_violated :
    VectorStoreSvc.delete_embeddings_by_file_path c1 "upload/a.json" = (c1, 0)
    ∧ p1 ∈ (VectorStoreSvc.delete_embeddings_by_file_path c1 "upload/a.json").1.points
    ∧ mget p1.payload "file_path" = some (MValue.str "upload/a.json")
    ∧ p1 ∈ VectorStoreSvc.search idQEnv
        (VectorStoreSvc.delete_embeddings_by_file_path c1 "upload/a.json").1 10
    ∧ MValue.str "upload/a.json" ∈ VectorStoreSvc.get_all_file_paths
        (VectorStoreSvc.delete_embeddings_by_file_path c1 "upload/a.json").1 := by
  decide

/-- Claim C3 (violation): on the Qdrant variant, deleting the provenance
key `spec-A` from a collection holding eleven chunks with that key removes
only the client's default scroll page of ten points and returns 10 — one
chunk with the key survives and is still returned by an unrestricted
search — so `delete_by_file_path` neither removes every chunk nor returns
the number of chunks bearing the key. -/
theorem C3_delete_count_page_capped :
    (QdrantStore.delete_by_file_path c3coll "spec-A").2 = 10
    ∧ (c3coll.points.filter (fun p =>
        decide (mget p.payload "file_path" = some (MValue.str "spec-A")))).length = 11
    ∧ ((QdrantStore.delete_by_file_path c3coll "spec-A").1.points.filter (fun p =>
        decide (mget p.payload "file_path" = some (MValue.str "spec-A")))).length = 1
    ∧ QPoint.mk 10 "" [("file_path", MValue.str "spec-A")]
        ∈ QdrantStore.similarity_search idQEnv
            (QdrantStore.delete_by_file_path c3coll "spec-A").1 11 none := by
  decide

/-- Claim C7 (violation): running the `/api/delete` route on a state with
the artifact file `upload/a.json` on disk and its chunk in the index ends
in a state where the file has been removed while the chunk is still stored
and still returned by search — the index-delete step silently failed
(missing `create_file_filter`), yet the file deletion proceeded. -/
theorem C7_artifact_deleted_chunks_searchable :
    deleteFileTrace "upload" "a.json" sys7 = [sys7, sys7, sys7end]
    ∧ "upload/a.json" ∉ sys7end.files
    ∧ p7 ∈ sys7end.collection.points
    ∧ p7 ∈ VectorStoreSvc.search idQEnv sys7end.collection 10
    ∧ mget p7.payload "file_path" = some (MValue.str "upload/a.json") := by
  decide

/-- Claim C2: on the FAISS variant, a filtered search over-fetches `k*3`
nearest neighbours and post-filters client-side — every returned chunk
matches the filter, at most `k` chunks are returned (for positive `k`),
and when fewer than `k` of the top `3k` neighbours match, exactly that
matching subset is returned in ranking order. -/
theorem C2_filtered_search_overfetch_postfilter :
    ∀ (env : FAISSEnv) (s : FAISSState) (q : String) (k : Nat) (f : QFilter),
      (∀ d ∈ FAISSStore.similarity_search env s q k (some f),
        matchesFilter d.metadata f = true)
      ∧ (1 ≤ k → (FAISSStore.similarity_search env s q k (some f)).length ≤ k)
      ∧ (((FAISSStore.innerSearch env s q (k * 3)).filter
            (fun d => matchesFilter d.metadata f)).length < k →
          FAISSStore.similarity_search env s q k (some f)
            = (FAISSStore.innerSearch env s q (k * 3)).filter
                (fun d => matchesFilter d.metadata f)) := by
  intro env s q k f
  refine ⟨?_, ?_, ?_⟩
  · intro d hd
    simp only [FAISSStore.similarity_search] at hd
    exact takeMatching_mem hd
  · intro hk
    simp only [FAISSStore.similarity_search]
    exact takeMatching_length_le _ hk
  · intro hlt
    simp only [FAISSStore.similarity_search]
    exact takeMatching_eq_filter hlt

/-- Claim C2 witness: on a concrete four-document corpus where exactly one
of the top six neighbours matches the version filter and `k = 2`, the
filtered search returns exactly that document. -/
theorem C2_filtered_search_witness :
    FAISSStore.similarity_search idFEnv s2 "q" 2 (some f2) = [dB]
    ∧ ((FAISSStore.innerSearch idFEnv s2 "q" (2 * 3)).filter
        (fun d => matchesFilter d.metadata f2)).length = 1 := by
  have h := (C2_filtered_search_overfetch_postfilter idFEnv s2 "q" 2 f2).2.2 (by decide)
  exact ⟨h.trans (by decide), by decide⟩

/-- Claim C9: a freshly constructed FAISS index and the index left by
`clean()` hold exactly one placeholder record with text `初始化索引` and
metadata `init = True`, carrying no provenance key, and an unfiltered
similarity search (any positive `k`) returns that placeholder. -/
theorem C9_init_placeholder :
    ∀ (env : FAISSEnv) (s : FAISSState) (q : String) (k : Nat),
      1 ≤ k →
        FAISSStore.clean s = freshFAISS
        ∧ freshFAISS.docs = [initDoc]
        ∧ initDoc.page_content = "初始化索引"
        ∧ mget initDoc.metadata "init" = some (MValue.bool true)
        ∧ mget initDoc.metadata "file_path" = none
        ∧ FAISSStore.similarity_search env freshFAISS q k none = [initDoc] := by
  intro env s q k hk
  refine ⟨rfl, rfl, rfl, by decide, by decide, ?_⟩
  have h2 : env.rank freshFAISS.docs q = [initDoc] :=
    List.perm_singleton.mp (env.rank_perm _ q)
  simp only [FAISSStore.similarity_search, FAISSStore.innerSearch, h2]
  cases k with
  | zero => omega
  | succ n => simp

/-- Claim C9 witness: with a concrete ranking environment, searching the
fresh index with `k = 3` returns the placeholder record. -/
theorem C9_init_placeholder_witness :
    FAISSStore.similarity_search idFEnv freshFAISS "users" 3 none = [initDoc] :=
  (C9_init_placeholder idFEnv sX "users" 3 (by decide)).2.2.2.2.2

/-- Claim C10 counterexample: a filter whose non-empty `must` holds only a
condition without `key`/`match` attributes selects documents — the
filtered search returns the stored document — refuting that only filters
with a non-empty `must` list of key/match conditions can select. -/
theorem C10_skipped_condition_counterexample :
    FAISSStore.similarity_search idFEnv sX "q" 5 (some fOther) = [docX]
    ∧ fOther.must = some [QCondition.other]
    ∧ (∀ c ∈ [QCondition.other], c.isField = false) := by
  decide

/-- Claim C10 (amended): a FAISS filtered search with a filter whose
`must` is absent or empty returns the empty list regardless of the corpus;
a non-empty result requires a non-empty `must`; but conditions lacking
`key`/`match` attributes are skipped, so a non-empty `must` of only such
conditions matches every metadata. -/
theorem C10_empty_must_amended :
    ∀ (env : FAISSEnv) (s : FAISSState) (q : String) (k : Nat) (f : QFilter),
      ((f.must = none ∨ f.must = some []) →
        FAISSStore.similarity_search env s q k (some f) = [])
      ∧ (FAISSStore.similarity_search env s q k (some f) ≠ [] →
          ∃ cs, f.must = some cs ∧ cs ≠ [])
      ∧ (∀ cs, f.must = some cs → cs ≠ [] → (∀ c ∈ cs, c.isField = false) →
          ∀ m, matchesFilter m f = true) := by
  intro env s q k f
  refine ⟨?_, ?_, ?_⟩
  · intro h
    simp only [FAISSStore.similarity_search]
    exact takeMatching_eq_nil (fun d _ => matchesFilter_of_trivial_must h _)
  · intro hne
    obtain ⟨mu⟩ := f
    match mu with
    | none => exact absurd (by
        simp only [FAISSStore.similarity_search]
        exact takeMatching_eq_nil (fun d _ => matchesFilter_of_trivial_must (Or.inl rfl) _)) hne
    | some [] => exact absurd (by
        simp only [FAISSStore.similarity_search]
        exact takeMatching_eq_nil (fun d _ => matchesFilter_of_trivial_must (Or.inr rfl) _)) hne
    | some (c :: cs) => exact ⟨c :: cs, rfl, by simp⟩
  · intro cs hcs hne hnf m
    obtain ⟨mu⟩ := f
    simp only at hcs
    subst hcs
    obtain ⟨c, cs2, rfl⟩ := List.exists_cons_of_ne_nil hne
    simp only [matchesFilter, List.all_eq_true]
    intro x hx
    have hxf := hnf x hx
    match x with
    | QCondition.field kk vv => simp [QCondition.isField] at hxf
    | QCondition.other => rfl

/-- Claim C10 witness: concretely, a `must`-less filter and an
empty-`must` filter both yield an empty search result on the one-document
corpus, and the skipped-condition filter matches that document's
metadata. -/
theorem C10_empty_must_witness :
    FAISSStore.similarity_search idFEnv sX "q" 5 (some ⟨none⟩) = []
    ∧ FAISSStore.similarity_search idFEnv sX "q" 5 (some ⟨some []⟩) = []
    ∧ matchesFilter docX.metadata fOther = true := by
  refine ⟨(C10_empty_must_amended idFEnv sX "q" 5 ⟨none⟩).1 (Or.inl rfl),
          (C10_empty_must_amended idFEnv sX "q" 5 ⟨some []⟩).1 (Or.inr rfl),
          (C10_empty_must_amended idFEnv sX "q" 5 fOther).2.2
            [QCondition.other] rfl (by decide) (by decide) docX.metadata⟩

/-- Claim C5 counterexample: for a concrete endpoint, both renderers place
the path line before the method line, so the rendered text differs from
the specification's stated order (method first). -/
theorem C5_field_order_counterexample :
    VectorStoreSvc.prepare_endpoint_text dumps0 e0 = "路径: /users\n方法: GET"
    ∧ VectorStoreSvc.renderMethodFirst dumps0 e0 = "方法: GET\n路径: /users"
    ∧ VectorStoreSvc.prepare_endpoint_text dumps0 e0
        ≠ VectorStoreSvc.renderMethodFirst dumps0 e0
    ∧ LangchainRAGService.prepare_endpoint_text dumps0 e0
        ≠ LangchainRAGService.renderMethodFirst dumps0 e0 := by
  refine ⟨rfl, rfl, ?_, ?_⟩ <;> decide

/-- Claim C5 (amended): both renderers produce the embedding text
deterministically with the fields in the fixed order path, method,
summary, description, tags, parameters, request-body schema, response map
— so re-ingesting an unchanged specification produces identical chunk
text. -/
theorem C5_path_first_order :
    ∀ (dumps : JVal → String) (e : APIEndpoint),
      VectorStoreSvc.prepare_endpoint_text dumps e
        = VectorStoreSvc.renderPathFirst dumps e
      ∧ LangchainRAGService.prepare_endpoint_text dumps e
        = LangchainRAGService.renderPathFirst dumps e := by
  intro dumps e
  constructor <;>
    simp [VectorStoreSvc.prepare_endpoint_text, VectorStoreSvc.renderPathFirst,
      LangchainRAGService.prepare_endpoint_text, LangchainRAGService.renderPathFirst]

/-- Claim C8 counterexample: with the reachable configuration
`EMBEDDING_PROVIDER=openai`, `OPENAI_EMBEDDING_MODEL=text-embedding-3-large`
(output dimension 3072), the service constructs successfully, yet
`get_embedding` returns a 3072-entry vector while
`get_embedding_dimension` returns the hardcoded 1536. -/
theorem C8_dimension_mismatch_counterexample :
    EmbeddingService.construct stBig = .ok svcBig
    ∧ (EmbeddingService.get_embedding envBig svcBig "hello").length = 3072
    ∧ EmbeddingService.get_embedding_dimension svcBig = 1536
    ∧ (EmbeddingService.get_embedding envBig svcBig "hello").length
        ≠ EmbeddingService.get_embedding_dimension svcBig := by
  have h1 : (EmbeddingService.get_embedding envBig svcBig "hello").length = 3072 := by
    show (List.replicate (dimBig EmbProvider.openai "text-embedding-3-large") 0).length = 3072
    rw [List.length_replicate]
    decide
  refine ⟨rfl, h1, rfl, ?_⟩
  rw [h1]
  decide

/-- Claim C8 (amended): construction with the `local` provider fails with
an `AttributeError` (the `Settings` class defines no
`local_embedding_model`); for a successfully constructed service the
dimension is the hardcoded 1536 (openai) or 1024 (siliconflow); and the
length of every returned embedding equals `get_embedding_dimension()`
exactly when the configured backing model's output dimension equals that
constant — the service itself never checks the length. -/
theorem C8_dimension_conditional :
    ∀ (env : EmbEnv) (st : EmbSettings),
      (st.embedding_provider = .localProvider →
        EmbeddingService.construct st = .error (.attributeError "local_embedding_model"))
      ∧ (∀ svc, EmbeddingService.construct st = .ok svc →
          (st.embedding_provider = .openai → svc.embedding_dimension = 1536)
          ∧ (st.embedding_provider = .siliconflow → svc.embedding_dimension = 1024)
          ∧ (∀ x, env.modelDim svc.provider svc.embedding_model_name
                = EmbeddingService.get_embedding_dimension svc →
              (EmbeddingService.get_embedding env svc x).length
                = EmbeddingService.get_embedding_dimension svc)) := by
  intro env st
  obtain ⟨p, em, oem, sem, dim⟩ := st
  constructor
  · intro hp
    simp only at hp
    subst hp
    rfl
  · intro svc hsvc
    refine ⟨?_, ?_, ?_⟩
    · intro hp
      simp only at hp
      subst hp
      simp only [EmbeddingService.construct, Except.ok.injEq] at hsvc
      subst hsvc
      rfl
    · intro hp
      simp only at hp
      subst hp
      simp only [EmbeddingService.construct, Except.ok.injEq] at hsvc
      subst hsvc
      rfl
    · intro x hdim
      calc (EmbeddingService.get_embedding env svc x).length
          = env.modelDim svc.provider svc.embedding_model_name :=
            env.encode_len svc.provider svc.embedding_model_name x
        _ = EmbeddingService.get_embedding_dimension svc := hdim

/-- Claim C8 witness: with the default models (openai provider with
`text-embedding-3-small`, true dimension 1536), the embedding of a
concrete text has length `get_embedding_dimension()`. -/
theorem C8_dimension_conditional_witness :
    (EmbeddingService.get_embedding envDefault svcDefault "hello").length
      = EmbeddingService.get_embedding_dimension svcDefault :=
  ((C8_dimension_conditional envDefault stDefault).2 svcDefault rfl).2.2 "hello" rfl

/-- Every document of a rebuilt index comes from some surviving metadata
entry and carries that entry's retained text as content. -/
theorem rebuildDocs_mem {mm : List (String × List Metadata)} {d : Doc}
    (hd : d ∈ FAISSStore.rebuildDocs mm) :
    ∃ p ∈ mm, d.metadata ∈ p.2 ∧ d.page_content = mgetStr d.metadata "text" := by
  unfold FAISSStore.rebuildDocs at hd
  rcases List.mem_map.mp hd with ⟨m, hm, rfl⟩
  rcases List.mem_flatten.mp hm with ⟨l, hl, hml⟩
  rcases List.mem_map.mp hl with ⟨p, hp, rfl⟩
  exact ⟨p, hp, hml, rfl⟩

/-- Conversely, every surviving metadata entry contributes its document to
the rebuilt index. -/
theorem rebuildDocs_mem_of {mm : List (String × List Metadata)} {p : String × List Metadata}
    (hp : p ∈ mm) {m : Metadata} (hm : m ∈ p.2) :
    (⟨mgetStr m "text", m⟩ : Doc) ∈ FAISSStore.rebuildDocs mm := by
  unfold FAISSStore.rebuildDocs
  exact List.mem_map.mpr
    ⟨m, List.mem_flatten.mpr ⟨p.2, List.mem_map.mpr ⟨p, hp, rfl⟩, hm⟩, rfl⟩

/-- Removing a key preserves the metadata-map invariant. -/
theorem MMInv_eraseMM {mm : List (String × List Metadata)} {fp : String}
    (h : MMInv mm) : MMInv (FAISSStore.eraseMM mm fp) := by
  intro p hp
  exact h p (List.mem_of_mem_filter hp)

/-- An index rebuilt from a metadata map satisfying the invariant is
consistent with that map on disk. -/
theorem diskConsistent_rebuild {mm : List (String × List Metadata)}
    (hInv : MMInv mm) :
    diskConsistent ⟨FAISSStore.rebuildDocs mm, mm⟩ = true := by
  unfold diskConsistent
  simp only [Bool.and_eq_true, List.all_eq_true]
  constructor
  · intro p hp
    obtain ⟨hne, hall⟩ := hInv p hp
    obtain ⟨m, hm⟩ := List.exists_mem_of_ne_nil p.2 hne
    have hdoc := rebuildDocs_mem_of hp hm
    have hfp := hall m hm
    simp only [Bool.or_eq_true, List.any_eq_true]
    exact Or.inr ⟨_, hdoc, by simp [hfp]⟩
  · intro d hd
    rcases rebuildDocs_mem hd with ⟨p, hp, hmem, _⟩
    have hfp := (hInv p hp).2 d.metadata hmem
    rw [hfp]
    simp only [List.any_eq_true, Bool.and_eq_true]
    exact ⟨p, hp, by simp, by simp [List.isEmpty_iff, (hInv p hp).1]⟩

/-- Claim C4 (amended): on the FAISS variant, `delete_by_file_path`
rebuilds the index from the surviving chunks' retained `text` metadata,
then overwrites the on-disk index files first and `metadata.json` second,
sequentially and in place rather than atomically: the final disk pair is
consistent, but the exposed intermediate disk state pairs the new index
with the old provenance map. -/
theorem C4_sequential_save_amended :
    ∀ (s : FAISSState) (d : FAISSDisk) (fp : String) (ms : List Metadata),
      MMInv s.metadata_map →
      d.index_docs = s.docs →
      d.metadata_file = s.metadata_map →
      List.lookup fp s.metadata_map = some ms →
      FAISSStore.rebuildDocs (FAISSStore.eraseMM s.metadata_map fp) ≠ [] →
      FAISSStore.deleteDiskTrace s d fp
        = [d,
           ⟨FAISSStore.rebuildDocs (FAISSStore.eraseMM s.metadata_map fp), s.metadata_map⟩,
           ⟨FAISSStore.rebuildDocs (FAISSStore.eraseMM s.metadata_map fp),
            FAISSStore.eraseMM s.metadata_map fp⟩]
      ∧ (∀ doc ∈ FAISSStore.rebuildDocs (FAISSStore.eraseMM s.metadata_map fp),
          doc.page_content = mgetStr doc.metadata "text")
      ∧ diskConsistent ⟨FAISSStore.rebuildDocs (FAISSStore.eraseMM s.metadata_map fp),
          FAISSStore.eraseMM s.metadata_map fp⟩ = true := by
  intro s d fp ms hInv hidx hmeta hlook hne
  have hie : (FAISSStore.rebuildDocs (FAISSStore.eraseMM s.metadata_map fp)).isEmpty = false := by
    cases hcd : FAISSStore.rebuildDocs (FAISSStore.eraseMM s.metadata_map fp) with
    | nil => exact absurd hcd hne
    | cons a t => rfl
  refine ⟨?_, ?_, ?_⟩
  · simp only [FAISSStore.deleteDiskTrace, hlook, hie]
    obtain ⟨di, dm⟩ := d
    simp only at hmeta
    subst hmeta
    simp
  · intro doc hdoc
    rcases rebuildDocs_mem hdoc with ⟨p, _, _, htext⟩
    exact htext
  · exact diskConsistent_rebuild (MMInv_eraseMM hInv)

/-- Claim C4 witness: deleting artifact `a` from the concrete two-artifact
store yields a consistent final disk pair. -/
theorem C4_sequential_save_witness :
    diskConsistent ⟨FAISSStore.rebuildDocs (FAISSStore.eraseMM s4.metadata_map "a"),
      FAISSStore.eraseMM s4.metadata_map "a"⟩ = true :=
  (C4_sequential_save_amended s4 d4 "a" [mA4] (by unfold MMInv; decide) rfl rfl
    (by decide) (by decide)).2.2

/-- Claim C4 counterexample: deleting artifact `a` from the concrete
two-artifact store passes through an intermediate disk state — new index,
old metadata map — that differs from both the previous and the new
consistent pair and on which the index and the provenance map disagree, so
the replacement is not atomic and a crash between the two saves does not
leave the previous consistent pair. -/
theorem C4_nonatomic_replace_counterexample :
    FAISSStore.deleteDiskTrace s4 d4 "a" = [d4, d4mid, d4fin]
    ∧ diskConsistent d4 = true
    ∧ diskConsistent d4fin = true
    ∧ diskConsistent d4mid = false
    ∧ d4mid ≠ d4 ∧ d4mid ≠ d4fin := by
  decide
